import Mathlib

/-
  Shallow embedding of the motor-power mixing and normalization core of the
  VEX V5 robot control program.

  Sources embedded:
    - src/src/controllers/DriveTrain.cpp  (DriveTrain::calculateTankDrive,
      calculateArcadeDrive, clamp, applyDeadband)
    - src/IntakeController.cpp           (IntakeController::calculateIntakePower,
      calculateRampPower, clampPowerLevel)
    - src/RampController.cpp             (RampController::calculateRampPower,
      clampPowerLevel)
    - src/PneumaticController.cpp        (PneumaticController::calculatePistonState,
      togglePosition, getOppositePosition)

  C++ `int` values are modelled as unbounded integers (`Int`): every value the
  control loop feeds these functions is a controller-axis or power value in
  [-100, 100], far from machine-word overflow. Out-parameters (`int&`) become
  returned pairs. Each controller's C++ enum becomes its own Lean inductive.
-/

namespace DriveTrain

/-- Embedding of `DriveTrain::clamp(int value, int min, int max)`. -/
def clamp (value lo hi : Int) : Int :=
  if value < lo then lo
  else if value > hi then hi
  else value

/-- Embedding of `DriveTrain::calculateTankDrive`; the two `int&` out-parameters
`leftPower`, `rightPower` become the returned pair. -/
def calculateTankDrive (leftStickInput rightStickInput : Int) : Int × Int :=
  (clamp leftStickInput (-100) 100, clamp rightStickInput (-100) 100)

/-- Embedding of `DriveTrain::calculateArcadeDrive`; the two `int&` out-parameters
become the returned pair. -/
def calculateArcadeDrive (forwardInput turnInput : Int) : Int × Int :=
  let leftPower := forwardInput + turnInput
  let rightPower := forwardInput - turnInput
  (clamp leftPower (-100) 100, clamp rightPower (-100) 100)

/-- Embedding of `DriveTrain::applyDeadband(int input, int deadband)`. -/
def applyDeadband (input deadband : Int) : Int :=
  if input > -deadband ∧ input < deadband then 0
  else input

end DriveTrain

namespace IntakeController

/-- Embedding of the C++ enum `IntakeController::MotorState`. -/
inductive MotorState where
  | STOP
  | FORWARD
  | REVERSE
deriving DecidableEq

/-- Embedding of `IntakeController::clampPowerLevel`. -/
def clampPowerLevel (powerLevel : Int) : Int :=
  if powerLevel < 0 then 0
  else if powerLevel > 100 then 100
  else powerLevel

/-- Embedding of `IntakeController::calculateIntakePower`. -/
def calculateIntakePower (state : MotorState) (powerLevel : Int) : Int :=
  if state = MotorState.STOP then 0
  else
    let clampedPower := clampPowerLevel powerLevel
    if state = MotorState.FORWARD then clampedPower
    else if state = MotorState.REVERSE then -clampedPower
    else 0

/-- Embedding of `IntakeController::calculateRampPower`. -/
def calculateRampPower (state : MotorState) (powerLevel : Int) : Int :=
  if state = MotorState.STOP then 0
  else
    let clampedPower := clampPowerLevel powerLevel
    if state = MotorState.FORWARD then clampedPower
    else if state = MotorState.REVERSE then -clampedPower
    else 0

end IntakeController

namespace RampController

/-- Embedding of the C++ enum `RampController::MotorState`. -/
inductive MotorState where
  | STOP
  | FORWARD
  | REVERSE
deriving DecidableEq

/-- Embedding of `RampController::clampPowerLevel`. -/
def clampPowerLevel (powerLevel : Int) : Int :=
  if powerLevel < 0 then 0
  else if powerLevel > 100 then 100
  else powerLevel

/-- Embedding of `RampController::calculateRampPower(state, useFullPower, powerLevel)`.
The C++ full-power block returns only for FORWARD/REVERSE and otherwise falls
through to the variable-power path, which the nested conditions reproduce. -/
def calculateRampPower (state : MotorState) (useFullPower : Bool) (powerLevel : Int) : Int :=
  if state = MotorState.STOP then 0
  else if useFullPower ∧ state = MotorState.FORWARD then 100
  else if useFullPower ∧ state = MotorState.REVERSE then -100
  else
    let clampedPower := clampPowerLevel powerLevel
    if state = MotorState.FORWARD then clampedPower
    else if state = MotorState.REVERSE then -clampedPower
    else 0

end RampController

namespace PneumaticController

/-- Embedding of the C++ enum `PneumaticController::HeightPosition`; its
declaration lives in the controller's header, with the two values LOW
(retracted) and HIGH (extended) used throughout the .cpp and the control loop. -/
inductive HeightPosition where
  | LOW
  | HIGH
deriving DecidableEq

/-- Embedding of `PneumaticController::calculatePistonState`: returns
`position == HIGH`. -/
def calculatePistonState (position : HeightPosition) : Bool :=
  decide (position = HeightPosition.HIGH)

/-- Embedding of `PneumaticController::getOppositePosition`. -/
def getOppositePosition (position : HeightPosition) : HeightPosition :=
  if position = HeightPosition.LOW then HeightPosition.HIGH
  else HeightPosition.LOW

/-- Embedding of `PneumaticController::togglePosition`. -/
def togglePosition (currentPosition : HeightPosition) : HeightPosition :=
  getOppositePosition currentPosition

end PneumaticController

/-- The clamp of DriveTrain agrees with the order-theoretic clamp `max lo (min v hi)`
whenever the bounds are ordered. -/
theorem clamp_eq_max_min (v lo hi : Int) (h : lo ≤ hi) :
    DriveTrain.clamp v lo hi = max lo (min v hi) := by
  simp only [DriveTrain.clamp, max_def, min_def]
  split_ifs <;> omega

/-- The shared 0-100 power-level clamp agrees with `max 0 (min l 100)`. -/
theorem clampPowerLevel_eq_max_min (l : Int) :
    IntakeController.clampPowerLevel l = max 0 (min l 100) := by
  simp only [IntakeController.clampPowerLevel, max_def, min_def]
  split_ifs <;> omega

/-- The ramp controller's 0-100 power-level clamp agrees with `max 0 (min l 100)`. -/
theorem rampClampPowerLevel_eq_max_min (l : Int) :
    RampController.clampPowerLevel l = max 0 (min l 100) := by
  simp only [RampController.clampPowerLevel, max_def, min_def]
  split_ifs <;> omega

/-- C1: for every pair of integer inputs (forward, turn), `calculateArcadeDrive`
returns leftPower = clamp(forward+turn, -100, 100) and
rightPower = clamp(forward-turn, -100, 100): the clamp is applied after the sum,
independently per side; in particular (80, 50) yields (100, 30). -/
theorem C1_arcadeDrive_clamp_after_sum :
    (∀ forward turn : Int,
      DriveTrain.calculateArcadeDrive forward turn =
        (max (-100) (min (forward + turn) 100),
         max (-100) (min (forward - turn) 100))) ∧
    DriveTrain.calculateArcadeDrive 50 25 = (75, 25) ∧
    DriveTrain.calculateArcadeDrive 50 (-25) = (25, 75) ∧
    DriveTrain.calculateArcadeDrive 80 50 = (100, 30) := by
  refine ⟨fun forward turn => ?_, by decide, by decide, by decide⟩
  simp only [DriveTrain.calculateArcadeDrive, DriveTrain.clamp, Prod.mk.injEq,
    max_def, min_def]
  constructor <;> split_ifs <;> omega

/-- C2: `RampController.calculateRampPower` returns 0 whenever the state is
STOP, regardless of the full-power flag and the level; with the full-power flag
set it returns exactly +100 for FORWARD and -100 for REVERSE with the level
having no effect; with the flag clear it returns the level clamped to [0, 100]
and signed by direction. -/
theorem C2_rampPower_dual_mode :
    (∀ (b : Bool) (level : Int),
      RampController.calculateRampPower RampController.MotorState.STOP b level = 0) ∧
    (∀ level : Int,
      RampController.calculateRampPower RampController.MotorState.FORWARD true level = 100) ∧
    (∀ level : Int,
      RampController.calculateRampPower RampController.MotorState.REVERSE true level = -100) ∧
    (∀ level : Int,
      RampController.calculateRampPower RampController.MotorState.FORWARD false level =
        max 0 (min level 100)) ∧
    (∀ level : Int,
      RampController.calculateRampPower RampController.MotorState.REVERSE false level =
        -(max 0 (min level 100))) := by
  refine ⟨fun b level => ?_, fun level => ?_, fun level => ?_, fun level => ?_, fun level => ?_⟩ <;>
    simp only [RampController.calculateRampPower, RampController.clampPowerLevel,
      max_def, min_def] <;>
    split_ifs <;> simp_all <;> omega

/-- C3: `IntakeController.calculateIntakePower` returns 0 for state STOP
whatever the level (including negative and greater than 100), +clamp(level,0,100)
for FORWARD and -clamp(level,0,100) for REVERSE. -/
theorem C3_intakePower_variable :
    (∀ level : Int,
      IntakeController.calculateIntakePower IntakeController.MotorState.STOP level = 0) ∧
    (∀ level : Int,
      IntakeController.calculateIntakePower IntakeController.MotorState.FORWARD level =
        max 0 (min level 100)) ∧
    (∀ level : Int,
      IntakeController.calculateIntakePower IntakeController.MotorState.REVERSE level =
        -(max 0 (min level 100))) := by
  refine ⟨fun level => ?_, fun level => ?_, fun level => ?_⟩ <;>
    simp only [IntakeController.calculateIntakePower, IntakeController.clampPowerLevel,
      max_def, min_def] <;>
    split_ifs <;> simp_all <;> omega

/-- C4: `applyDeadband` returns 0 exactly when the input lies strictly inside
the symmetric band (-d, d), and returns the input unchanged otherwise; inputs
exactly at d or -d are not deadbanded, and no range clamping is performed. -/
theorem C4_applyDeadband_strict_band :
    ∀ input d : Int,
      DriveTrain.applyDeadband input d = (if |input| < d then 0 else input) ∧
      DriveTrain.applyDeadband d d = d ∧
      DriveTrain.applyDeadband (-d) d = -d := by
  intro input d
  refine ⟨?_, ?_, ?_⟩ <;>
    simp only [DriveTrain.applyDeadband, abs_lt] <;>
    split_ifs <;> omega

/-- C5: every output of `calculateTankDrive`, `calculateArcadeDrive`,
`calculateIntakePower` and the dual-mode `calculateRampPower` lies in
[-100, 100], for all integer inputs, states, flags and levels. -/
theorem C5_motor_power_range :
    (∀ l r : Int,
      -100 ≤ (DriveTrain.calculateTankDrive l r).1 ∧
      (DriveTrain.calculateTankDrive l r).1 ≤ 100 ∧
      -100 ≤ (DriveTrain.calculateTankDrive l r).2 ∧
      (DriveTrain.calculateTankDrive l r).2 ≤ 100) ∧
    (∀ f t : Int,
      -100 ≤ (DriveTrain.calculateArcadeDrive f t).1 ∧
      (DriveTrain.calculateArcadeDrive f t).1 ≤ 100 ∧
      -100 ≤ (DriveTrain.calculateArcadeDrive f t).2 ∧
      (DriveTrain.calculateArcadeDrive f t).2 ≤ 100) ∧
    (∀ (s : IntakeController.MotorState) (level : Int),
      -100 ≤ IntakeController.calculateIntakePower s level ∧
      IntakeController.calculateIntakePower s level ≤ 100) ∧
    (∀ (s : RampController.MotorState) (b : Bool) (level : Int),
      -100 ≤ RampController.calculateRampPower s b level ∧
      RampController.calculateRampPower s b level ≤ 100) := by
  refine ⟨fun l r => ?_, fun f t => ?_, fun s level => ?_, fun s b level => ?_⟩
  · simp only [DriveTrain.calculateTankDrive, DriveTrain.clamp]
    split_ifs <;> omega
  · simp only [DriveTrain.calculateArcadeDrive, DriveTrain.clamp]
    split_ifs <;> omega
  · cases s <;>
      simp only [IntakeController.calculateIntakePower, IntakeController.clampPowerLevel] <;>
      split_ifs <;> simp_all <;> omega
  · cases s <;> cases b <;>
      simp only [RampController.calculateRampPower, RampController.clampPowerLevel] <;>
      split_ifs <;> simp_all <;> omega

/-- C6: `calculateTankDrive` maps each side independently with no
cross-coupling: each output equals its own input whenever that input lies in
[-100, 100], equals the nearest boundary otherwise, and depends only on its own
side's stick. -/
theorem C6_tankDrive_per_side (l r : Int) :
    ((-100 ≤ l ∧ l ≤ 100) → (DriveTrain.calculateTankDrive l r).1 = l) ∧
    ((-100 ≤ r ∧ r ≤ 100) → (DriveTrain.calculateTankDrive l r).2 = r) ∧
    (100 < l → (DriveTrain.calculateTankDrive l r).1 = 100) ∧
    (l < -100 → (DriveTrain.calculateTankDrive l r).1 = -100) ∧
    (100 < r → (DriveTrain.calculateTankDrive l r).2 = 100) ∧
    (r < -100 → (DriveTrain.calculateTankDrive l r).2 = -100) ∧
    (∀ r' : Int, (DriveTrain.calculateTankDrive l r).1 = (DriveTrain.calculateTankDrive l r').1) ∧
    (∀ l' : Int, (DriveTrain.calculateTankDrive l r).2 = (DriveTrain.calculateTankDrive l' r).2) := by
  refine ⟨?_, ?_, ?_, ?_, ?_, ?_, fun r' => rfl, fun l' => rfl⟩ <;>
    intro h <;>
    simp only [DriveTrain.calculateTankDrive, DriveTrain.clamp] <;>
    split_ifs <;> omega

/-- C6 witness: evaluating the per-side tank drive theorem on concrete inputs
(50, 50), (150, -200). -/
theorem C6_tankDrive_per_side_witness :
    (DriveTrain.calculateTankDrive 50 50).1 = 50 ∧
    (DriveTrain.calculateTankDrive 50 50).2 = 50 ∧
    (DriveTrain.calculateTankDrive 150 (-200)).1 = 100 ∧
    (DriveTrain.calculateTankDrive 150 (-200)).2 = -100 :=
  ⟨(C6_tankDrive_per_side 50 50).1 (by decide),
   (C6_tankDrive_per_side 50 50).2.1 (by decide),
   (C6_tankDrive_per_side 150 (-200)).2.2.1 (by decide),
   (C6_tankDrive_per_side 150 (-200)).2.2.2.2.2.1 (by decide)⟩

/-- C7: the intake-style and ramp-style variable-power computations of
IntakeController compute the same function on every state and every level. -/
theorem C7_intake_ramp_equal :
    ∀ (s : IntakeController.MotorState) (level : Int),
      IntakeController.calculateIntakePower s level =
        IntakeController.calculateRampPower s level := by
  intro s level
  rfl

/-- C8: `togglePosition` is an involution on the two actuator positions, it
swaps LOW (retracted) and HIGH (extended), and it is defined as
`getOppositePosition`. -/
theorem C8_toggle_involution :
    (∀ p, PneumaticController.togglePosition (PneumaticController.togglePosition p) = p) ∧
    PneumaticController.togglePosition PneumaticController.HeightPosition.LOW =
      PneumaticController.HeightPosition.HIGH ∧
    PneumaticController.togglePosition PneumaticController.HeightPosition.HIGH =
      PneumaticController.HeightPosition.LOW ∧
    (∀ p, PneumaticController.togglePosition p = PneumaticController.getOppositePosition p) := by
  refine ⟨fun p => ?_, rfl, rfl, fun p => rfl⟩
  cases p <;> rfl

/-- C9: `calculatePistonState` returns true exactly on HIGH (extended) and
false exactly on LOW (retracted), over the whole two-valued position domain. -/
theorem C9_pistonState_iff :
    ∀ p, (PneumaticController.calculatePistonState p = true ↔
            p = PneumaticController.HeightPosition.HIGH) ∧
         (PneumaticController.calculatePistonState p = false ↔
            p = PneumaticController.HeightPosition.LOW) := by
  intro p
  cases p <;> simp [PneumaticController.calculatePistonState]

/-- C10: `applyDeadband` returns either 0 or exactly its input; hence it maps
inputs in [-100, 100] to outputs in [-100, 100] even though it performs no
clamping, and for every threshold at most 0 it is the identity. -/
theorem C10_applyDeadband_zero_or_id (input d : Int) :
    (DriveTrain.applyDeadband input d = 0 ∨ DriveTrain.applyDeadband input d = input) ∧
    (-100 ≤ input → input ≤ 100 →
      -100 ≤ DriveTrain.applyDeadband input d ∧ DriveTrain.applyDeadband input d ≤ 100) ∧
    (d ≤ 0 → DriveTrain.applyDeadband input d = input) := by
  simp only [DriveTrain.applyDeadband]
  split_ifs with h
  · exact ⟨Or.inl rfl, fun h1 h2 => by omega, fun hd => by omega⟩
  · exact ⟨Or.inr rfl, fun h1 h2 => ⟨h1, h2⟩, fun _ => rfl⟩

/-- C10 witness: evaluating the zero-or-identity theorem at inputs (3, 5) and
(7, -2). -/
theorem C10_applyDeadband_zero_or_id_witness :
    (DriveTrain.applyDeadband 3 5 = 0 ∨ DriveTrain.applyDeadband 3 5 = 3) ∧
    (-100 ≤ DriveTrain.applyDeadband 3 5 ∧ DriveTrain.applyDeadband 3 5 ≤ 100) ∧
    DriveTrain.applyDeadband 7 (-2) = 7 :=
  ⟨(C10_applyDeadband_zero_or_id 3 5).1,
   (C10_applyDeadband_zero_or_id 3 5).2.1 (by decide) (by decide),
   (C10_applyDeadband_zero_or_id 7 (-2)).2.2 (by decide)⟩
